import Mathlib

/-!
Shallow embedding of the on-chain coordination contract of rhombus-tech/POC1
(files src/core/init.rs, src/core/executor.rs, src/core/utils.rs,
src/challenge/create.rs, src/challenge/response.rs, src/challenge/verification.rs,
src/execution/mod.rs, src/state.rs, src/types.rs).

Modelling conventions:
- `Address` (an opaque 32-byte value with equality) is modelled as `Nat`;
  byte vectors (`Vec<u8>`) as `List Nat`.
- The host state store (the `state_schema!` of src/state.rs) is a record with
  one `Option`-valued field per key family; keyed families are functions.
- Every exposed operation is a transaction: it is modelled as a function
  `State → args → Except String State`.  A Rust `panic!` / failed `assert!` /
  `.expect` aborts the transaction; it is modelled as `Except.error msg`
  carrying the panic message, and the pre-state is kept by the caller
  (all writes of the failing transaction are discarded).
- Machine integers (`u64`, `u128`, `usize`) never overflow in the scenarios
  that arise here; they are modelled as `Nat`, with `% 256` arithmetic made
  explicit where the code manipulates bytes.
-/

namespace POC1

abbrev Address := Nat
abbrev Bytes := List Nat

/-- src/types.rs `EnclaveType`. -/
inductive EnclaveType
  | IntelSGX
  | AMDSEV
deriving DecidableEq, Repr

/-- src/types.rs `Phase`. -/
inductive Phase
  | None
  | Creation
  | Executing
  | ChallengeExecutor
  | ChallengeWatchdog
  | Crashed
deriving DecidableEq, Repr

/-- src/types.rs `ChallengeType`.  (src/execution/mod.rs names a variant
`ExecutionVerification` that does not exist in `types.rs`; the dead dual
challenge path is modelled with the `Execution` variant.) -/
inductive ChallengeType
  | Attestation
  | Execution
  | StateVerification
  | HeartbeatMissed
deriving DecidableEq, Repr

/-- src/types.rs `ChallengeStatus`. -/
inductive ChallengeStatus
  | Pending
  | Responded
  | Verified
  | Failed
  | Expired
deriving DecidableEq, Repr

/-- src/types.rs `Operator`, with the fields as constructed by src/core/init.rs. -/
structure Operator where
  initialized : Bool
  tee_signature_address : String
  tee_encryption_key : Bytes
  attestation_report : Bytes
  last_heartbeat : Nat
  challenges_initiated : Nat
  challenges_responded : Nat
deriving DecidableEq, Repr

/-- src/types.rs `ExecutorPool`. -/
structure ExecutorPool where
  sgx_executor : Option Address
  sev_executor : Option Address
  last_execution_time : Nat
  execution_count : Nat
  failed_attempts : Nat
deriving DecidableEq, Repr

/-- src/types.rs `Challenge` (the persisted challenge of the state schema). -/
structure Challenge where
  id : Nat
  challenger : Address
  challenged : Address
  challenge_type : ChallengeType
  challenge_data : Bytes
  response_deadline : Nat
  status : ChallengeStatus
  verification_proofs : List Bytes
deriving DecidableEq, Repr

/-- src/types.rs `WatchdogPool`. -/
structure WatchdogPool where
  watchdogs : List (Address × EnclaveType)
  active_challenges : List Challenge
  last_verification : Nat
deriving DecidableEq, Repr

/-- src/types.rs `ChallengeProof`. -/
structure ChallengeProof where
  challenge_id : Nat
  proof_data : Bytes
  timestamp : Nat
  witness_signatures : List (Address × Bytes)
deriving DecidableEq, Repr

/-- src/types.rs `ExecutionResult`. -/
structure ExecutionResult where
  result_hash : Bytes
  execution_id : Nat
  executor : Address
  enclave_type : EnclaveType
  timestamp : Nat
  block_height : Nat
deriving DecidableEq, Repr

/-- The persisted key schema of src/state.rs, one field per key family.
`Option.none` models an absent key. -/
structure State where
  system_initialized : Option Bool
  current_phase : Option Phase
  last_global_update : Option Nat
  executor_pool : Option ExecutorPool
  watchdog_pool : Option WatchdogPool
  operator_data : String → Option Operator
  enclave_type_of : Address → Option EnclaveType
  attestation_status : Address → Option Bool
  heartbeat_timestamp : Address → Option Nat
  keep_id : Address → Option String
  drawbridge_token : Address → Option Bytes
  challenges : Nat → Option Challenge
  active_challenges : Option (List Nat)
  challenge_count : Option Nat
  contract_count : Option Nat
  active_contracts : Option (List Nat)
  token_contract : Option Address
  governance_contract : Option Address
  execution_result : Nat → Option ExecutionResult
  execution_verified : Nat → Option Bool
  pending_verifications : Option (List Nat)
  execution_mismatches : Nat → Option (ExecutionResult × ExecutionResult)

/-- The empty store before any transaction. -/
def genesis : State where
  system_initialized := none
  current_phase := none
  last_global_update := none
  executor_pool := none
  watchdog_pool := none
  operator_data := fun _ => none
  enclave_type_of := fun _ => none
  attestation_status := fun _ => none
  heartbeat_timestamp := fun _ => none
  keep_id := fun _ => none
  drawbridge_token := fun _ => none
  challenges := fun _ => none
  active_challenges := none
  challenge_count := none
  contract_count := none
  active_contracts := none
  token_contract := none
  governance_contract := none
  execution_result := fun _ => none
  execution_verified := fun _ => none
  pending_verifications := none
  execution_mismatches := fun _ => none

/-- Pointwise update of a keyed family of the store. -/
def setFn {α β : Type} [DecidableEq α] (f : α → Option β) (k : α) (v : β) :
    α → Option β :=
  fun x => if x = k then some v else f x

/-- A failed Rust `assert!`/`panic!` aborts the transaction with its message. -/
def check (b : Bool) (msg : String) : Except String Unit :=
  if b then Except.ok () else Except.error msg

/-- `.expect(msg)` on a missing key panics with `msg`. -/
def orAbort {α : Type} (o : Option α) (msg : String) : Except String α :=
  match o with
  | some a => Except.ok a
  | none => Except.error msg

/-- src/state.rs `ensure_initialized`. -/
def ensure_initialized (s : State) : Except String Unit :=
  check (s.system_initialized.getD false) "system not initialized"

/-- src/state.rs `ensure_phase`.  The formatted panic message is collapsed to
a fixed string; only its occurrence, not its text, matters to the model. -/
def ensure_phase (s : State) (expected : Phase) : Except String Unit :=
  check ((s.current_phase.getD Phase.None) = expected) "invalid phase"

/-- src/core/utils.rs `verify_sgx_keep` (stubbed to `true` in the source). -/
def verify_sgx_keep (_attestation _token : Bytes) : Bool := true

/-- src/core/utils.rs `verify_sev_keep` (stubbed to `true` in the source). -/
def verify_sev_keep (_attestation _token : Bytes) : Bool := true

/-- src/core/utils.rs `verify_attestation_report`. -/
def verify_attestation_report (attestation_report drawbridge_token : Bytes)
    (enclave_type : EnclaveType) : Bool :=
  match enclave_type with
  | EnclaveType.IntelSGX => verify_sgx_keep attestation_report drawbridge_token
  | EnclaveType.AMDSEV => verify_sev_keep attestation_report drawbridge_token

/-- src/core/utils.rs `verify_signature` (stubbed to `true` in the source,
and never called by any exposed operation). -/
def verify_signature (_signed_hash _signature : Bytes) (_signer : String) : Bool :=
  true

/-- src/core/utils.rs `hash_message` (identity stub in the source). -/
def hash_message (message : Bytes) : Bytes := message

/-- `Address::to_string()`: the display form of an address, used as the
`OperatorData` lookup key in the challenge code.  It is distinct from any
operator-name string that does not start with a digit. -/
def addr_string (a : Address) : String := toString a

/-- src/core/executor.rs `transition_to_executing` (phase write plus
src/state.rs `update_global_state`). -/
def transition_to_executing (s : State) (ts : Nat) : State :=
  { s with current_phase := some Phase.Executing, last_global_update := some ts }

/-- src/core/init.rs `init`.  The `AlreadyInitialized` failure of the spec is
the panic "system already initialized". -/
def init (s : State) (ts : Nat) (sgx_operator sev_operator : String)
    (token_contract governance_contract : Address) : Except String State := do
  check (!(s.system_initialized.getD false)) "system already initialized"
  let executorPool : ExecutorPool :=
    { sgx_executor := none, sev_executor := none, last_execution_time := ts
      execution_count := 0, failed_attempts := 0 }
  let watchdogPool : WatchdogPool :=
    { watchdogs := [], active_challenges := [], last_verification := ts }
  let sgx_op : Operator :=
    { initialized := true, tee_signature_address := sgx_operator
      tee_encryption_key := [], attestation_report := [], last_heartbeat := ts
      challenges_initiated := 0, challenges_responded := 0 }
  let sev_op : Operator :=
    { initialized := true, tee_signature_address := sev_operator
      tee_encryption_key := [], attestation_report := [], last_heartbeat := ts
      challenges_initiated := 0, challenges_responded := 0 }
  Except.ok
    { s with
      current_phase := some Phase.Creation
      system_initialized := some true
      executor_pool := some executorPool
      watchdog_pool := some watchdogPool
      operator_data :=
        setFn (setFn s.operator_data sgx_operator sgx_op) sev_operator sev_op
      token_contract := some token_contract
      governance_contract := some governance_contract
      last_global_update := some ts
      contract_count := some 0
      challenge_count := some 0
      active_contracts := some []
      active_challenges := some [] }

/-- src/core/executor.rs `register_executor` (the first, well-formed definition
of that file; the orphan duplicate body below it is not a function). -/
def register_executor (s : State) (caller : Address) (ts : Nat)
    (enclave_type : EnclaveType) (keep_id : String)
    (attestation_report drawbridge_token : Bytes) : Except String State := do
  ensure_initialized s
  ensure_phase s Phase.Creation
  check (verify_attestation_report attestation_report drawbridge_token enclave_type)
    "invalid attestation"
  let pool ← orAbort s.executor_pool "executor pool not initialized"
  let pool' ←
    match enclave_type with
    | EnclaveType.IntelSGX => do
        check pool.sgx_executor.isNone "SGX executor slot already filled"
        Except.ok { pool with sgx_executor := some caller }
    | EnclaveType.AMDSEV => do
        check pool.sev_executor.isNone "SEV executor slot already filled"
        Except.ok { pool with sev_executor := some caller }
  let s' : State :=
    { s with
      executor_pool := some pool'
      enclave_type_of := setFn s.enclave_type_of caller enclave_type
      keep_id := setFn s.keep_id caller keep_id
      drawbridge_token := setFn s.drawbridge_token caller drawbridge_token
      attestation_status := setFn s.attestation_status caller true
      heartbeat_timestamp := setFn s.heartbeat_timestamp caller ts }
  if pool'.sgx_executor.isSome && pool'.sev_executor.isSome then
    Except.ok (transition_to_executing s' ts)
  else
    Except.ok s'

/-- Modelled from the spec: `register_watchdog` is an exposed entrypoint of the
repository (the spec describes it in §4.2 and the repository's tests call it)
but its definition is not among the source files under src/.  Following the
spec's words: valid in `Creation` or `Executing`; caller not already a
watchdog, not currently an executor; attestation must validate (the in-source
oracle `verify_attestation_report` is stubbed to `true`); appends the caller
to the watchdog set; no phase change. -/
def register_watchdog (s : State) (caller : Address) (enclave_type : EnclaveType)
    (attestation_report signature : Bytes) : Except String State := do
  ensure_initialized s
  let phase := s.current_phase.getD Phase.None
  check (phase = Phase.Creation || phase = Phase.Executing) "invalid phase"
  let wpool ← orAbort s.watchdog_pool "watchdog pool not initialized"
  check (!(wpool.watchdogs.any (fun p => p.1 = caller))) "watchdog already registered"
  let epool ← orAbort s.executor_pool "executor pool not initialized"
  check (!(epool.sgx_executor = some caller || epool.sev_executor = some caller))
    "caller is an executor"
  check (verify_attestation_report attestation_report signature enclave_type)
    "invalid attestation"
  Except.ok
    { s with
      watchdog_pool :=
        some { wpool with watchdogs := wpool.watchdogs ++ [(caller, enclave_type)] } }

/-- src/core/executor.rs `submit_heartbeat`. -/
def submit_heartbeat (s : State) (caller : Address) (ts : Nat) :
    Except String State := do
  ensure_initialized s
  let executorPool ← orAbort s.executor_pool "executor pool not initialized"
  let watchdogPool ← orAbort s.watchdog_pool "watchdog pool not initialized"
  let is_executor :=
    executorPool.sgx_executor = some caller || executorPool.sev_executor = some caller
  let is_watchdog := watchdogPool.watchdogs.any (fun p => p.1 = caller)
  check (is_executor || is_watchdog) "unauthorized caller"
  let s1 : State :=
    { s with heartbeat_timestamp := setFn s.heartbeat_timestamp caller ts }
  if is_executor then
    Except.ok
      { s1 with
        executor_pool :=
          some { executorPool with
                 last_execution_time := ts
                 execution_count := executorPool.execution_count + 1 } }
  else
    Except.ok s1

/-- src/challenge/create.rs `challenge_executor`. -/
def challenge_executor (s : State) (caller : Address) (ts : Nat)
    (executor : Address) (challenge_type : ChallengeType)
    (challenge_data : Bytes) : Except String State := do
  ensure_initialized s
  ensure_phase s Phase.Executing
  let watchdogPool ← orAbort s.watchdog_pool "watchdog pool not initialized"
  check (watchdogPool.watchdogs.any (fun p => p.1 = caller)) "not authorized watchdog"
  let executorPool ← orAbort s.executor_pool "executor pool not initialized"
  check (executorPool.sgx_executor = some executor
         || executorPool.sev_executor = some executor) "target is not an executor"
  let challenge_id := (s.challenge_count.getD 0) + 1
  let challenge : Challenge :=
    { id := challenge_id, challenger := caller, challenged := executor
      challenge_type := challenge_type, challenge_data := challenge_data
      response_deadline := ts + 100, status := ChallengeStatus.Pending
      verification_proofs := [] }
  let active := (s.active_challenges.getD []) ++ [challenge_id]
  let s1 : State :=
    { s with
      challenges := setFn s.challenges challenge_id challenge
      challenge_count := some challenge_id
      active_challenges := some active
      current_phase := some Phase.ChallengeExecutor }
  match s1.operator_data (addr_string caller) with
  | some op =>
      Except.ok
        { s1 with
          operator_data :=
            setFn s1.operator_data (addr_string caller)
              { op with challenges_initiated := op.challenges_initiated + 1 } }
  | none => Except.ok s1

/-- src/challenge/response.rs `verify_challenge_proof`: walks the witness
list; for each witness it re-reads the watchdog pool (panicking if the pool
key is absent) and returns `false` on the first witness that is not a current
watchdog.  Signatures are never inspected.  Its Boolean verdict is returned
to the caller (which discards it). -/
def verify_challenge_proof (s : State) (witnesses : List (Address × Bytes)) :
    Except String Bool :=
  match witnesses with
  | [] => Except.ok true
  | (witness, _signature) :: rest => do
      let watchdogPool ← orAbort s.watchdog_pool "watchdog pool not initialized"
      if watchdogPool.watchdogs.any (fun p => p.1 = witness) then
        verify_challenge_proof s rest
      else
        Except.ok false

/-- src/challenge/response.rs `handle_failed_challenge` (the responder-side
failure path; reachable only if the attestation oracle returned `false`,
which its stub never does). -/
def handle_failed_challenge (s : State) (challenge : Challenge) :
    Except String State := do
  let executorPool ← orAbort s.executor_pool "executor pool not initialized"
  let pool1 :=
    if executorPool.sgx_executor = some challenge.challenged then
      { executorPool with sgx_executor := none }
    else if executorPool.sev_executor = some challenge.challenged then
      { executorPool with sev_executor := none }
    else
      executorPool
  let pool2 := { pool1 with failed_attempts := pool1.failed_attempts + 1 }
  Except.ok { s with executor_pool := some pool2 }

/-- src/challenge/response.rs `verify_attestation_challenge`.  The source
invokes `verify_attestation_report` omitting the kind argument; both kind
branches of the oracle are stubbed to `true`, so the call is modelled by the
stub's value. -/
def verify_attestation_challenge (s : State) (challenge : Challenge)
    (proof : ChallengeProof) : Except String State :=
  let attestation_valid := verify_sgx_keep proof.proof_data []
  if attestation_valid then
    Except.ok
      { s with
        attestation_status := setFn s.attestation_status challenge.challenged true }
  else
    handle_failed_challenge s challenge

/-- src/challenge/response.rs `respond_to_challenge`. -/
def respond_to_challenge (s : State) (caller : Address) (ts : Nat)
    (challenge_id : Nat) (response_data : Bytes) (proof : ChallengeProof) :
    Except String State := do
  ensure_initialized s
  let challenge ← orAbort (s.challenges challenge_id) "challenge not found"
  check (challenge.challenged = caller) "unauthorized responder"
  check (challenge.status = ChallengeStatus.Pending) "challenge not pending"
  check (ts ≤ challenge.response_deadline) "challenge deadline passed"
  let _proof_ok ← verify_challenge_proof s proof.witness_signatures
  let challenge' :=
    { challenge with
      status := ChallengeStatus.Responded
      verification_proofs := challenge.verification_proofs ++ [response_data] }
  let s1 : State := { s with challenges := setFn s.challenges challenge_id challenge' }
  let s2 : State :=
    match s1.operator_data (addr_string caller) with
    | some op =>
        { s1 with
          operator_data :=
            setFn s1.operator_data (addr_string caller)
              { op with challenges_responded := op.challenges_responded + 1 } }
    | none => s1
  if challenge'.challenge_type = ChallengeType.Attestation then
    verify_attestation_challenge s2 challenge' proof
  else
    Except.ok s2

/-- src/challenge/verification.rs `handle_challenge_failure`: vacate the slot
holding the challenged identity (if any), bump `failed_attempts`, and set the
phase to `Crashed` exactly when both slots are empty afterwards. -/
def handle_challenge_failure (s : State) (challenge : Challenge) :
    Except String State := do
  let executorPool ← orAbort s.executor_pool "executor pool not initialized"
  let pool1 :=
    if executorPool.sgx_executor = some challenge.challenged then
      { executorPool with sgx_executor := none }
    else if executorPool.sev_executor = some challenge.challenged then
      { executorPool with sev_executor := none }
    else
      executorPool
  let pool2 := { pool1 with failed_attempts := pool1.failed_attempts + 1 }
  let s1 : State := { s with executor_pool := some pool2 }
  if pool2.sgx_executor.isNone && pool2.sev_executor.isNone then
    Except.ok { s1 with current_phase := some Phase.Crashed }
  else
    Except.ok s1

/-- src/challenge/verification.rs `verify_challenge_response`.  The caller's
proof is appended to `verification_proofs` unconditionally; when the count
(which includes the response stored by `respond_to_challenge`) reaches
`|watchdogs| * 2 / 3 + 1`, the challenge is settled by the **current** call's
`verification_result` alone. -/
def verify_challenge_response (s : State) (caller : Address) (ts : Nat)
    (challenge_id : Nat) (verification_result : Bool)
    (verification_proof : Bytes) : Except String State := do
  ensure_initialized s
  let watchdogPool ← orAbort s.watchdog_pool "watchdog pool not initialized"
  check (watchdogPool.watchdogs.any (fun p => p.1 = caller)) "not authorized watchdog"
  let challenge ← orAbort (s.challenges challenge_id) "challenge not found"
  check (challenge.status = ChallengeStatus.Responded) "challenge not in response phase"
  let challenge1 :=
    { challenge with
      verification_proofs := challenge.verification_proofs ++ [verification_proof] }
  let required_verifications := watchdogPool.watchdogs.length * 2 / 3 + 1
  if challenge1.verification_proofs.length ≥ required_verifications then
    if verification_result then
      let s1 := transition_to_executing s ts
      Except.ok
        { s1 with
          challenges :=
            setFn s1.challenges challenge_id
              { challenge1 with status := ChallengeStatus.Verified } }
    else
      let challenge2 := { challenge1 with status := ChallengeStatus.Failed }
      let s1 ← handle_challenge_failure s challenge2
      Except.ok
        { s1 with challenges := setFn s1.challenges challenge_id challenge2 }
  else
    Except.ok { s with challenges := setFn s.challenges challenge_id challenge1 }

/-- `u128::to_le_bytes`: the 16 little-endian bytes of an execution id. -/
def u128_to_le_bytes (n : Nat) : Bytes :=
  (List.range 16).map (fun i => n / 256 ^ i % 256)

/-- src/execution/mod.rs `create_verification_challenge`: the shared challenge
payload `execution_id ∥ sgx_hash ∥ sev_hash`. -/
def create_verification_challenge (execution_id : Nat)
    (sgx_result sev_result : ExecutionResult) : Bytes :=
  u128_to_le_bytes execution_id ++ sgx_result.result_hash ++ sev_result.result_hash

/-- src/execution/mod.rs `create_dual_challenge`: one challenge per executor,
created through `challenge_executor` with the submitting executor as the
acting caller. -/
def create_dual_challenge (s : State) (caller : Address) (ts : Nat)
    (sgx_executor sev_executor : Address) (challenge_data : Bytes) :
    Except String State := do
  let s1 ← challenge_executor s caller ts sgx_executor
    ChallengeType.Execution challenge_data
  challenge_executor s1 caller ts sev_executor
    ChallengeType.Execution challenge_data

/-- src/execution/mod.rs `handle_execution_mismatch`: flip the phase to
`ChallengeExecutor`, re-read the stored mismatch pair and create the dual
challenge.  (`challenge_executor` then requires phase `Executing`, so this
path, were it reached, would abort the transaction.) -/
def handle_execution_mismatch (s : State) (caller : Address) (ts : Nat)
    (execution_id : Nat) : Except String State := do
  let s1 : State := { s with current_phase := some Phase.ChallengeExecutor }
  let pair ← orAbort (s1.execution_mismatches execution_id) "no mismatch found"
  let challenge_data := create_verification_challenge execution_id pair.1 pair.2
  create_dual_challenge s1 caller ts pair.1.executor pair.2.executor challenge_data

/-- src/execution/mod.rs `get_executor_result`: the single stored
`ExecutionResult(execution_id)` record, filtered by enclave kind. -/
def get_executor_result (s : State) (execution_id : Nat)
    (enclave_type : EnclaveType) : Option ExecutionResult :=
  match s.execution_result execution_id with
  | some result => if result.enclave_type = enclave_type then some result else none
  | none => none

/-- src/execution/mod.rs `verify_execution_match`: read back the one stored
record, project it onto each kind, and only when both projections are filled
compare hashes, record the outcome and drop the id from the pending list; in
every other case return with the state untouched. -/
def verify_execution_match (s : State) (caller : Address) (ts : Nat)
    (execution_id : Nat) : Except String State := do
  let _result ← orAbort (s.execution_result execution_id) "no execution result found"
  let sgx_result := get_executor_result s execution_id EnclaveType.IntelSGX
  let sev_result := get_executor_result s execution_id EnclaveType.AMDSEV
  match sgx_result, sev_result with
  | some sgx, some sev => do
      let s1 ←
        if sgx.result_hash = sev.result_hash then
          Except.ok
            { s with execution_verified := setFn s.execution_verified execution_id true }
        else do
          let s' : State :=
            { s with
              execution_mismatches :=
                setFn s.execution_mismatches execution_id (sgx, sev) }
          handle_execution_mismatch s' caller ts execution_id
      let pending := (s1.pending_verifications.getD []).filter (fun id => id ≠ execution_id)
      Except.ok { s1 with pending_verifications := some pending }
  | _, _ => Except.ok s

/-- src/execution/mod.rs `submit_execution_result`.  The result is stored
under the single key `ExecutionResult(execution_id)` (a second submission
overwrites the first); a first submission appends the id to
`PendingVerifications`, a repeated id goes through `verify_execution_match`. -/
def submit_execution_result (s : State) (caller : Address) (ts block_height : Nat)
    (execution_id : Nat) (result_hash : Bytes) : Except String State := do
  let executorPool ← orAbort s.executor_pool "executor pool not initialized"
  let enclave_type ←
    if executorPool.sgx_executor = some caller then
      Except.ok EnclaveType.IntelSGX
    else if executorPool.sev_executor = some caller then
      Except.ok EnclaveType.AMDSEV
    else
      Except.error "unauthorized executor"
  let result : ExecutionResult :=
    { result_hash := result_hash, execution_id := execution_id, executor := caller
      enclave_type := enclave_type, timestamp := ts, block_height := block_height }
  let s1 : State :=
    { s with execution_result := setFn s.execution_result execution_id result }
  let pending := s1.pending_verifications.getD []
  if !(pending.contains execution_id) then
    Except.ok { s1 with pending_verifications := some (pending ++ [execution_id]) }
  else
    verify_execution_match s1 caller ts execution_id

/-- src/execution/mod.rs `verify_execution`: the public query for
`ExecutionVerified(execution_id)`, defaulting to `false`. -/
def verify_execution (s : State) (execution_id : Nat) : Bool :=
  (s.execution_verified execution_id).getD false

/-- One externally-submitted transaction against the modelled entrypoints.
Each constructor carries the caller identity and the host-supplied inputs of
the corresponding `#[public]` operation (`opInit` has no caller check). -/
inductive Op
  | opInit (ts : Nat) (sgx_operator sev_operator : String)
      (token_contract governance_contract : Address)
  | opRegisterExecutor (caller : Address) (ts : Nat) (enclave_type : EnclaveType)
      (keep_id : String) (attestation_report drawbridge_token : Bytes)
  | opRegisterWatchdog (caller : Address) (enclave_type : EnclaveType)
      (attestation_report signature : Bytes)
  | opSubmitHeartbeat (caller : Address) (ts : Nat)
  | opSubmitExecutionResult (caller : Address) (ts block_height execution_id : Nat)
      (result_hash : Bytes)
  | opChallengeExecutor (caller : Address) (ts : Nat) (executor : Address)
      (challenge_type : ChallengeType) (challenge_data : Bytes)
  | opRespondToChallenge (caller : Address) (ts challenge_id : Nat)
      (response_data : Bytes) (proof : ChallengeProof)
  | opVerifyChallengeResponse (caller : Address) (ts challenge_id : Nat)
      (verification_result : Bool) (verification_proof : Bytes)
deriving DecidableEq, Repr

/-- Run one transaction. -/
def applyOp (s : State) : Op → Except String State
  | Op.opInit ts a b tok gov => init s ts a b tok gov
  | Op.opRegisterExecutor caller ts ty keep att tok =>
      register_executor s caller ts ty keep att tok
  | Op.opRegisterWatchdog caller ty att sig =>
      register_watchdog s caller ty att sig
  | Op.opSubmitHeartbeat caller ts => submit_heartbeat s caller ts
  | Op.opSubmitExecutionResult caller ts bh eid h =>
      submit_execution_result s caller ts bh eid h
  | Op.opChallengeExecutor caller ts ex ty dat =>
      challenge_executor s caller ts ex ty dat
  | Op.opRespondToChallenge caller ts cid resp proof =>
      respond_to_challenge s caller ts cid resp proof
  | Op.opVerifyChallengeResponse caller ts cid verdict proof =>
      verify_challenge_response s caller ts cid verdict proof

/-- Run a sequence of transactions, all of which must succeed. -/
def runOps (s : State) : List Op → Except String State
  | [] => Except.ok s
  | o :: rest => do
      let s' ← applyOp s o
      runOps s' rest

/-- A state is reachable when some successful transaction sequence produces it
from the empty store. -/
def Reachable (s : State) : Prop :=
  ∃ ops : List Op, runOps genesis ops = Except.ok s

/-- The state after a transaction sequence from the empty store, when every
transaction succeeded. -/
def stateAfter (ops : List Op) : Option State :=
  match runOps genesis ops with
  | Except.ok s => some s
  | Except.error _ => none

/-- The distinct callers that submitted a challenge verification carrying
`verdict = true` somewhere in a transaction sequence. -/
def trueVerifiers : List Op → List Address
  | [] => []
  | Op.opVerifyChallengeResponse caller _ _ true _ :: rest =>
      caller :: trueVerifiers rest
  | _ :: rest => trueVerifiers rest

/-- Status of a stored challenge after a transaction sequence. -/
def challengeStatusAfter (ops : List Op) (challenge_id : Nat) :
    Option ChallengeStatus :=
  (stateAfter ops).bind (fun s => (s.challenges challenge_id).map Challenge.status)

/-- A challenge is unsettled while it still awaits its response or its
quorum: status `Pending` or `Responded`.  (`Verified`, `Failed` and
`Expired` are terminal.) -/
def unsettled (c : Challenge) : Prop :=
  c.status = ChallengeStatus.Pending ∨ c.status = ChallengeStatus.Responded

/-- The inductive invariant of the reachable states, used to show that the
`Crashed` phase is dead: the only write of `Phase.Crashed`
(`handle_challenge_failure`) requires both slots to be empty after vacating
one, and along every reachable execution an unsettled challenge exists only
while both slots are occupied. -/
structure SysInv (s : State) : Prop where
  /-- the phase is never `Crashed` -/
  not_crashed : s.current_phase ≠ some Phase.Crashed
  /-- before `init`, the store holds no executor pool and no challenge -/
  uninit : s.system_initialized.getD false = false →
    s.executor_pool = none ∧ ∀ cid, s.challenges cid = none
  /-- in phase `Executing` both executor slots are occupied -/
  executing_pool : s.current_phase = some Phase.Executing →
    ∃ ep, s.executor_pool = some ep
      ∧ ep.sgx_executor.isSome = true ∧ ep.sev_executor.isSome = true
  /-- in phase `Executing` every stored challenge is settled -/
  executing_settled : s.current_phase = some Phase.Executing →
    ∀ cid c, s.challenges cid = some c → ¬unsettled c
  /-- while a challenge is unsettled, both executor slots are occupied -/
  open_pool : ∀ cid c, s.challenges cid = some c → unsettled c →
    ∃ ep, s.executor_pool = some ep
      ∧ ep.sgx_executor.isSome = true ∧ ep.sev_executor.isSome = true
  /-- at most one challenge is unsettled at any time -/
  open_unique : ∀ cid₁ c₁ cid₂ c₂, s.challenges cid₁ = some c₁ →
    s.challenges cid₂ = some c₂ → unsettled c₁ → unsettled c₂ → cid₁ = cid₂
  /-- before the first challenge can exist (phase unset, `None` or
  `Creation`), no challenge is stored -/
  creation_clean : (s.current_phase = none ∨ s.current_phase = some Phase.None
      ∨ s.current_phase = some Phase.Creation) → ∀ cid, s.challenges cid = none

/-! Concrete scenarios used by the claim theorems.  Addresses and operator
names follow the repository's test fixtures (src/tests/common.rs): executors
3 (SGX) and 4 (SEV), watchdogs 5 and 6, operator name strings as in the
tests. -/

/-- The SGX operator name of the test fixtures. -/
def sgx_operator_name : String := "sgx_operator_address"

/-- The SEV operator name of the test fixtures. -/
def sev_operator_name : String := "sev_operator_address"

/-- Bootstrap: `init` then registration of both executors, leaving the system
in phase `Executing` with executor 3 in the SGX slot and 4 in the SEV slot. -/
def base_trace : List Op :=
  [ Op.opInit 10 sgx_operator_name sev_operator_name 1 2,
    Op.opRegisterExecutor 3 11 EnclaveType.IntelSGX "keep-a" [0] [0],
    Op.opRegisterExecutor 4 12 EnclaveType.AMDSEV "keep-b" [0] [0] ]

/-- The spec's scenario 3: both executors submit the hash `[0xAA; 32]` for
`execution_id = 1`. -/
def matching_results_trace : List Op :=
  base_trace ++
  [ Op.opSubmitExecutionResult 3 20 7 1 (List.replicate 32 170),
    Op.opSubmitExecutionResult 4 21 7 1 (List.replicate 32 170) ]

/-- The spec's scenario 4: the executors submit differing hashes
(`[0xAA; 32]` versus `[0xBB; 32]`) for the same execution id. -/
def mismatched_results_trace : List Op :=
  base_trace ++
  [ Op.opSubmitExecutionResult 3 20 7 1 (List.replicate 32 170),
    Op.opSubmitExecutionResult 4 21 7 1 (List.replicate 32 187) ]

/-- Executor 3 submits twice for the same execution id, with different
hashes and timestamps. -/
def duplicate_submission_trace : List Op :=
  base_trace ++
  [ Op.opSubmitExecutionResult 3 20 7 1 (List.replicate 32 170),
    Op.opSubmitExecutionResult 3 25 8 1 (List.replicate 32 187) ]

/-- Two watchdogs (quorum `⌊2·2/3⌋ + 1 = 2`), one challenge, one response,
then a single verification with `verdict = true` from watchdog 5. -/
def quorum_trace : List Op :=
  base_trace ++
  [ Op.opRegisterWatchdog 5 EnclaveType.IntelSGX [0] [0],
    Op.opRegisterWatchdog 6 EnclaveType.IntelSGX [0] [0],
    Op.opChallengeExecutor 5 30 3 ChallengeType.Execution [1, 2],
    Op.opRespondToChallenge 3 40 1 [9] ⟨1, [7], 40, []⟩,
    Op.opVerifyChallengeResponse 5 50 1 true [8] ]

/-- A challenge whose response carries a witness signature from address 99,
which is not a watchdog (the only watchdog is 5). -/
def bad_witness_trace : List Op :=
  base_trace ++
  [ Op.opRegisterWatchdog 5 EnclaveType.IntelSGX [0] [0],
    Op.opChallengeExecutor 5 30 3 ChallengeType.Execution [1, 2],
    Op.opRespondToChallenge 3 40 1 [9] ⟨1, [7], 40, [(99, [1, 1])]⟩ ]

/-- Executor pool with both slots occupied (3 in SGX, 4 in SEV). -/
def full_pool : ExecutorPool :=
  { sgx_executor := some 3, sev_executor := some 4, last_execution_time := 0
    execution_count := 0, failed_attempts := 0 }

/-- A challenge-phase state with both executors present and one SGX-kind
watchdog (address 5) in the pool. -/
def challenge_phase_state : State :=
  { genesis with
    system_initialized := some true
    current_phase := some Phase.ChallengeExecutor
    executor_pool := some full_pool
    watchdog_pool :=
      some { watchdogs := [(5, EnclaveType.IntelSGX)], active_challenges := []
             last_verification := 0 } }

/-- The same state with the SEV slot already vacant. -/
def half_pool_state : State :=
  { challenge_phase_state with
    executor_pool := some { full_pool with sev_executor := none } }

/-- A failed challenge opened by watchdog 5 against executor 3. -/
def failed_challenge : Challenge :=
  { id := 1, challenger := 5, challenged := 3
    challenge_type := ChallengeType.Execution, challenge_data := []
    response_deadline := 100, status := ChallengeStatus.Failed
    verification_proofs := [] }

/-- An `Executing` state with both executors, one watchdog (address 5) and
zeroed counters, used to exercise challenge creation. -/
def executing_state : State :=
  { genesis with
    system_initialized := some true
    current_phase := some Phase.Executing
    executor_pool := some full_pool
    watchdog_pool :=
      some { watchdogs := [(5, EnclaveType.IntelSGX)], active_challenges := []
             last_verification := 0 }
    challenge_count := some 0
    active_challenges := some [] }

/-- A state holding a `Responded` challenge (id 1, against executor 3) with
one accumulated proof, and two registered watchdogs. -/
def responded_state : State :=
  { genesis with
    system_initialized := some true
    current_phase := some Phase.ChallengeExecutor
    executor_pool := some full_pool
    watchdog_pool :=
      some { watchdogs := [(5, EnclaveType.IntelSGX), (6, EnclaveType.IntelSGX)]
             active_challenges := [], last_verification := 0 }
    challenges :=
      setFn genesis.challenges 1
        { id := 1, challenger := 5, challenged := 3
          challenge_type := ChallengeType.Execution, challenge_data := [1, 2]
          response_deadline := 130, status := ChallengeStatus.Responded
          verification_proofs := [[9]] }
    challenge_count := some 1
    active_challenges := some [1] }

/-- A state in which executor 3 has already stored its SGX result for
execution id 1, which is pending. -/
def single_result_state : State :=
  { genesis with
    system_initialized := some true
    current_phase := some Phase.Executing
    executor_pool := some full_pool
    watchdog_pool :=
      some { watchdogs := [], active_challenges := [], last_verification := 0 }
    execution_result :=
      setFn genesis.execution_result 1
        { result_hash := List.replicate 32 170, execution_id := 1, executor := 3
          enclave_type := EnclaveType.IntelSGX, timestamp := 20, block_height := 7 }
    pending_verifications := some [1] }

/-- The symmetric state: executor 4's SEV result for execution id 1 is
already stored and pending. -/
def single_result_state_sev : State :=
  { single_result_state with
    execution_result :=
      setFn genesis.execution_result 1
        { result_hash := List.replicate 32 170, execution_id := 1, executor := 4
          enclave_type := EnclaveType.AMDSEV, timestamp := 21, block_height := 7 } }

/-- C1 (code bug): after both registered executors submit the **same**
`result_hash` for `execution_id = 1`, the code leaves
`ExecutionVerified(1)` unset (the query returns `false`) and the id **still
sits** in `PendingVerifications` — because the second submission overwrote
the single `ExecutionResult(1)` record, so `verify_execution_match` can
never see both kinds at once.  This contradicts the claim, the spec's
scenario 3 and the repository's own test `test_matching_execution_results`. -/
theorem c1_matching_results_never_verified :
    (stateAfter matching_results_trace).map (fun s => verify_execution s 1)
      = some false
    ∧ (stateAfter matching_results_trace).bind (fun s => s.pending_verifications)
      = some [1] := by
  constructor <;> decide

/-- C3 (code bug): after the two executors submit **differing** hashes for
`execution_id = 1`, the code stores no mismatch pair, creates no challenge
(`ChallengeCount` stays 0), keeps the phase `Executing`, and leaves the id
pending — the mismatch arm of `verify_execution_match` is unreachable
because the second submission overwrote the first result.  This contradicts
the claim and the repository's own test `test_mismatched_execution_results`. -/
theorem c3_mismatch_never_detected :
    (stateAfter mismatched_results_trace).map (fun s => s.execution_mismatches 1)
      = some none
    ∧ (stateAfter mismatched_results_trace).bind (fun s => s.current_phase)
      = some Phase.Executing
    ∧ (stateAfter mismatched_results_trace).bind (fun s => s.challenge_count)
      = some 0
    ∧ (stateAfter mismatched_results_trace).bind (fun s => s.pending_verifications)
      = some [1]
    ∧ (stateAfter mismatched_results_trace).map (fun s => verify_execution s 1)
      = some false := by
  refine ⟨?_, ?_, ?_, ?_, ?_⟩ <;> decide

/-- C5 (counterexample): a second `submit_execution_result` call by executor 3
for `execution_id = 1` — whose SGX result is already stored — does **not**
fail with `DuplicateSubmission`: the whole trace succeeds and the stored
record now carries the second hash `[0xBB; 32]` and the second timestamp,
so the record did not stay unchanged either. -/
theorem c5_duplicate_submission_accepted :
    (stateAfter duplicate_submission_trace).isSome = true
    ∧ (stateAfter duplicate_submission_trace).bind
        (fun s => (s.execution_result 1).map
          (fun r => (r.result_hash, r.timestamp)))
      = some (List.replicate 32 187, 25) := by
  constructor <;> decide

/-- C2 (counterexample): with two registered watchdogs the quorum is
`⌊2·2/3⌋ + 1 = 2`, yet the challenge reaches `Verified` although only **one**
distinct watchdog ever submitted a `verdict = true` verification: the
response stored by `respond_to_challenge` is itself counted against the
quorum, and no per-watchdog tally exists. -/
theorem c2_verified_without_quorum :
    challengeStatusAfter quorum_trace 1 = some ChallengeStatus.Verified
    ∧ (stateAfter quorum_trace).bind
        (fun s => s.watchdog_pool.map (fun w => w.watchdogs.length)) = some 2
    ∧ (trueVerifiers quorum_trace).dedup.length = 1
    ∧ (trueVerifiers quorum_trace).dedup.length < 2 * 2 / 3 + 1 := by
  refine ⟨?_, ?_, ?_, ?_⟩ <;> decide

/-- C6 (code bug): a response whose proof lists witness 99 — not a current
watchdog (the watchdog set is exactly `[(5, IntelSGX)]`) — is accepted:
the trace succeeds and the challenge reaches `Responded` with the response
appended, because `respond_to_challenge` discards the Boolean verdict of
`verify_challenge_proof` and never verifies any witness signature. -/
theorem c6_invalid_witness_accepted :
    challengeStatusAfter bad_witness_trace 1 = some ChallengeStatus.Responded
    ∧ (stateAfter bad_witness_trace).bind
        (fun s => s.watchdog_pool.map (fun w => w.watchdogs))
      = some [(5, EnclaveType.IntelSGX)]
    ∧ (stateAfter bad_witness_trace).bind
        (fun s => (s.challenges 1).map (fun c => c.verification_proofs))
      = some [[9]] := by
  refine ⟨?_, ?_, ?_⟩ <;> decide

/-- C4 (counterexample): `handle_challenge_failure` on a failed challenge
against executor 3, in a state where a matching-kind watchdog (5, SGX) is
available, vacates the SGX slot but promotes **no** watchdog (the watchdog
pool is unchanged, the slot stays empty) and leaves the phase at
`ChallengeExecutor` rather than returning to `Executing`; and when the other
slot is already empty it sets the phase to `Crashed` even though the
compatible watchdog 5 exists. -/
theorem c4_no_promotion_on_failure :
    (handle_challenge_failure challenge_phase_state failed_challenge).toOption.map
        (fun s => (s.executor_pool, s.current_phase, s.watchdog_pool))
      = some (some { sgx_executor := none, sev_executor := some 4
                     last_execution_time := 0, execution_count := 0
                     failed_attempts := 1 },
              some Phase.ChallengeExecutor,
              challenge_phase_state.watchdog_pool)
    ∧ (handle_challenge_failure half_pool_state failed_challenge).toOption.map
        (fun s => s.current_phase)
      = some (some Phase.Crashed) := by
  constructor <;> decide

/-- C8: a first `init` call (on any state not yet marked initialized)
succeeds and leaves phase `Creation`, both executor slots empty, an empty
watchdog set, both operator records with `initialized = true`, the two
collaborator addresses stored and both counters zero; and **any** second
`init` call on the resulting state fails with the `AlreadyInitialized`
panic ("system already initialized"). -/
theorem c8_init_first_call_and_reinit (s : State) (ts : Nat) (a b : String)
    (tok gov : Address) (h : s.system_initialized.getD false = false) :
    ∃ s', init s ts a b tok gov = Except.ok s'
      ∧ s'.current_phase = some Phase.Creation
      ∧ s'.executor_pool = some { sgx_executor := none, sev_executor := none
                                  last_execution_time := ts, execution_count := 0
                                  failed_attempts := 0 }
      ∧ s'.watchdog_pool = some { watchdogs := [], active_challenges := []
                                  last_verification := ts }
      ∧ (∃ oa, s'.operator_data a = some oa ∧ oa.initialized = true)
      ∧ (∃ ob, s'.operator_data b = some ob ∧ ob.initialized = true)
      ∧ s'.token_contract = some tok
      ∧ s'.governance_contract = some gov
      ∧ s'.challenge_count = some 0
      ∧ s'.contract_count = some 0
      ∧ ∀ ts2 a2 b2 tok2 gov2,
          init s' ts2 a2 b2 tok2 gov2 = Except.error "system already initialized" := by
  have h0 : init s ts a b tok gov = Except.ok
      { s with
        current_phase := some Phase.Creation
        system_initialized := some true
        executor_pool := some { sgx_executor := none, sev_executor := none
                                last_execution_time := ts, execution_count := 0
                                failed_attempts := 0 }
        watchdog_pool := some { watchdogs := [], active_challenges := []
                                last_verification := ts }
        operator_data :=
          setFn (setFn s.operator_data a
              { initialized := true, tee_signature_address := a
                tee_encryption_key := [], attestation_report := []
                last_heartbeat := ts, challenges_initiated := 0
                challenges_responded := 0 }) b
            { initialized := true, tee_signature_address := b
              tee_encryption_key := [], attestation_report := []
              last_heartbeat := ts, challenges_initiated := 0
              challenges_responded := 0 }
        token_contract := some tok
        governance_contract := some gov
        last_global_update := some ts
        contract_count := some 0
        challenge_count := some 0
        active_contracts := some []
        active_challenges := some [] } := by
    simp [init, check, h, bind, Except.bind]
  refine ⟨_, h0, rfl, rfl, rfl, ?_, ?_, rfl, rfl, rfl, rfl, ?_⟩
  · by_cases hab : a = b <;> simp [setFn, hab]
  · simp [setFn]
  · intro ts2 a2 b2 tok2 gov2
    simp [init, check, bind, Except.bind]

/-- C8 witness: the theorem applied to the empty store with the test
fixtures' arguments. -/
theorem c8_init_first_call_and_reinit_witness :
    genesis.system_initialized.getD false = false
    ∧ ∃ s', init genesis 10 sgx_operator_name sev_operator_name 1 2 = Except.ok s'
        ∧ s'.current_phase = some Phase.Creation := by
  refine ⟨rfl, ?_⟩
  obtain ⟨s', h1, h2, -⟩ :=
    c8_init_first_call_and_reinit genesis 10 sgx_operator_name sev_operator_name 1 2 rfl
  exact ⟨s', h1, h2⟩

/-- C10: a successful `challenge_executor` call stores the new challenge
under the key `ChallengeCount + 1`, updates `ChallengeCount` to exactly that
id, the stored challenge's `id` field equals its key, and no other stored
challenge changes — so each created challenge increases the counter by one
and the counter equals the highest issued id. -/
theorem c10_challenge_id_allocation (s : State) (caller : Address) (ts : Nat)
    (executor : Address) (challenge_type : ChallengeType) (challenge_data : Bytes)
    (s' : State)
    (h : challenge_executor s caller ts executor challenge_type challenge_data
          = Except.ok s') :
    s'.challenge_count = some ((s.challenge_count.getD 0) + 1)
    ∧ (s'.challenges ((s.challenge_count.getD 0) + 1)).map Challenge.id
        = some ((s.challenge_count.getD 0) + 1)
    ∧ ∀ j, j ≠ (s.challenge_count.getD 0) + 1 → s'.challenges j = s.challenges j := by
  simp only [challenge_executor, ensure_initialized, ensure_phase, check, orAbort,
    bind, Except.bind] at h
  repeat' split at h
  all_goals cases h
  all_goals refine ⟨rfl, by simp [setFn], fun j hj => ?_⟩
  all_goals simp [setFn, hj]

/-- C10 witness: the theorem applied to a concrete `Executing` state with
`ChallengeCount = 0`; the new challenge gets id 1. -/
theorem c10_challenge_id_allocation_witness :
    ∃ s', challenge_executor executing_state 5 30 3 ChallengeType.Execution []
            = Except.ok s'
      ∧ s'.challenge_count = some 1
      ∧ (s'.challenges 1).map Challenge.id = some 1 := by
  refine ⟨_, rfl, ?_⟩
  have h := c10_challenge_id_allocation executing_state 5 30 3
    ChallengeType.Execution [] _ rfl
  exact ⟨h.1, h.2.1⟩

/-- C2 (amended): a successful `verify_challenge_response` call settles the
challenge to `Verified` **iff** the current call carries `verdict = true` and
the accumulated proof count — the response plus every verification
submission so far, duplicates included, plus this one — has reached
`⌊2W/3⌋ + 1`; no per-watchdog tally or distinctness is involved. -/
theorem c2_verified_iff_proof_count (s : State) (caller : Address) (ts cid : Nat)
    (verdict : Bool) (proof : Bytes) (wp : WatchdogPool) (c : Challenge) (s' : State)
    (hwp : s.watchdog_pool = some wp) (hc : s.challenges cid = some c)
    (h : verify_challenge_response s caller ts cid verdict proof = Except.ok s') :
    (s'.challenges cid).map Challenge.status = some ChallengeStatus.Verified
      ↔ (verdict = true
         ∧ c.verification_proofs.length + 1 ≥ wp.watchdogs.length * 2 / 3 + 1) := by
  simp only [verify_challenge_response, ensure_initialized, ensure_phase, check,
    orAbort, hwp, hc, handle_challenge_failure, transition_to_executing,
    bind, Except.bind] at h
  repeat' split at h
  all_goals cases h
  all_goals simp_all [setFn]

/-- C2 amended witness: on a `Responded` challenge with one stored proof and
two watchdogs (quorum 2), a single `verdict = true` verification settles the
challenge to `Verified`. -/
theorem c2_verified_iff_proof_count_witness :
    ∃ s', verify_challenge_response responded_state 5 50 1 true [8] = Except.ok s'
      ∧ (s'.challenges 1).map Challenge.status = some ChallengeStatus.Verified := by
  refine ⟨_, rfl, ?_⟩
  exact (c2_verified_iff_proof_count responded_state 5 50 1 true [8] _ _ _
    rfl rfl rfl).mpr (by decide)

/-- C4 (amended): `handle_challenge_failure` vacates the slot holding the
challenged executor and increments `failed_attempts`, but performs **no**
watchdog promotion (the watchdog pool is left exactly as it was); the phase
becomes `Crashed` whenever both slots are empty afterwards — regardless of
whether a compatible watchdog exists — and is left unchanged otherwise
(executor replacement exists only as the separate `replace_executor`
entrypoint, which the failure handler never invokes). -/
theorem c4_failure_vacates_without_promotion (s : State) (c : Challenge)
    (pool : ExecutorPool) (h : s.executor_pool = some pool) :
    ∃ s' pool', handle_challenge_failure s c = Except.ok s'
      ∧ s'.watchdog_pool = s.watchdog_pool
      ∧ s'.challenges = s.challenges
      ∧ s'.executor_pool = some pool'
      ∧ pool'.failed_attempts = pool.failed_attempts + 1
      ∧ (pool.sgx_executor = some c.challenged →
          pool'.sgx_executor = none ∧ pool'.sev_executor = pool.sev_executor)
      ∧ (pool.sgx_executor ≠ some c.challenged →
          pool.sev_executor = some c.challenged →
          pool'.sev_executor = none ∧ pool'.sgx_executor = pool.sgx_executor)
      ∧ (pool'.sgx_executor = none → pool'.sev_executor = none →
          s'.current_phase = some Phase.Crashed)
      ∧ (¬(pool'.sgx_executor = none ∧ pool'.sev_executor = none) →
          s'.current_phase = s.current_phase) := by
  by_cases h1 : pool.sgx_executor = some c.challenged
  · by_cases h2 : pool.sev_executor = none
    · refine ⟨{ s with executor_pool := some { pool with sgx_executor := none, failed_attempts := pool.failed_attempts + 1 }, current_phase := some Phase.Crashed },
        { pool with sgx_executor := none, failed_attempts := pool.failed_attempts + 1 },
        ?_, rfl, rfl, rfl, rfl, fun _ => ⟨rfl, rfl⟩, fun hn _ => absurd h1 hn,
        fun _ _ => rfl, fun hne => absurd ⟨rfl, h2⟩ hne⟩
      simp [handle_challenge_failure, orAbort, h, h1, h2, bind, Except.bind]
    · refine ⟨{ s with executor_pool := some { pool with sgx_executor := none, failed_attempts := pool.failed_attempts + 1 } },
        { pool with sgx_executor := none, failed_attempts := pool.failed_attempts + 1 },
        ?_, rfl, rfl, rfl, rfl, fun _ => ⟨rfl, rfl⟩, fun hn _ => absurd h1 hn,
        fun _ hsev => absurd hsev h2, fun _ => rfl⟩
      simp [handle_challenge_failure, orAbort, h, h1, h2, bind, Except.bind]
  · by_cases h2 : pool.sev_executor = some c.challenged
    · by_cases h3 : pool.sgx_executor = none
      · refine ⟨{ s with executor_pool := some { pool with sev_executor := none, failed_attempts := pool.failed_attempts + 1 }, current_phase := some Phase.Crashed },
          { pool with sev_executor := none, failed_attempts := pool.failed_attempts + 1 },
          ?_, rfl, rfl, rfl, rfl, fun h1' => absurd h1' h1,
          fun _ _ => ⟨rfl, rfl⟩, fun _ _ => rfl,
          fun hne => absurd ⟨h3, rfl⟩ hne⟩
        simp [handle_challenge_failure, orAbort, h, h1, h2, h3, bind, Except.bind]
      · refine ⟨{ s with executor_pool := some { pool with sev_executor := none, failed_attempts := pool.failed_attempts + 1 } },
          { pool with sev_executor := none, failed_attempts := pool.failed_attempts + 1 },
          ?_, rfl, rfl, rfl, rfl, fun h1' => absurd h1' h1,
          fun _ _ => ⟨rfl, rfl⟩, fun hsgx _ => absurd hsgx h3, fun _ => rfl⟩
        simp [handle_challenge_failure, orAbort, h, h1, h2, h3, bind, Except.bind]
    · by_cases h3 : pool.sgx_executor = none ∧ pool.sev_executor = none
      · refine ⟨{ s with executor_pool := some { pool with failed_attempts := pool.failed_attempts + 1 }, current_phase := some Phase.Crashed },
          { pool with failed_attempts := pool.failed_attempts + 1 },
          ?_, rfl, rfl, rfl, rfl, fun h1' => absurd h1' h1,
          fun _ h2' => absurd h2' h2, fun _ _ => rfl,
          fun hne => absurd ⟨h3.1, h3.2⟩ hne⟩
        simp [handle_challenge_failure, orAbort, h, h1, h2, h3.1, h3.2,
          bind, Except.bind]
      · refine ⟨{ s with executor_pool := some { pool with failed_attempts := pool.failed_attempts + 1 } },
          { pool with failed_attempts := pool.failed_attempts + 1 },
          ?_, rfl, rfl, rfl, rfl, fun h1' => absurd h1' h1,
          fun _ h2' => absurd h2' h2,
          fun hsgx hsev => absurd ⟨hsgx, hsev⟩ h3, fun _ => rfl⟩
        simp only [handle_challenge_failure, orAbort, h, h1, h2, if_false,
          bind, Except.bind]
        rw [if_neg]
        simp only [Bool.and_eq_true, Option.isNone_iff_eq_none]
        exact fun hb => h3 hb

/-- C4 amended witness: the theorem applied to the concrete challenge-phase
state with both slots filled; the SGX slot is vacated, the watchdog pool is
untouched and the phase is unchanged. -/
theorem c4_failure_vacates_without_promotion_witness :
    ∃ s' pool', handle_challenge_failure challenge_phase_state failed_challenge
        = Except.ok s'
      ∧ s'.watchdog_pool = challenge_phase_state.watchdog_pool
      ∧ s'.executor_pool = some pool'
      ∧ pool'.failed_attempts = 1 := by
  obtain ⟨s', pool', h1, h2, -, h4, h5, -⟩ :=
    c4_failure_vacates_without_promotion challenge_phase_state failed_challenge
      full_pool rfl
  exact ⟨s', pool', h1, h2, h4, by rw [h5]; rfl⟩

/-- C5 (amended): a second `submit_execution_result` call for a pending
execution id by an executor of **either kind** whose kind already filled the
stored record **succeeds** and silently overwrites the single stored record
with the new result; no `DuplicateSubmission` check exists, and nothing else
in the store changes.  (The caller's kind is determined as in the source:
the SGX slot is consulted first, so an SEV caller is one that occupies the
SEV slot and not the SGX slot.) -/
theorem c5_resubmission_overwrites (s : State) (caller : Address)
    (ts bh eid : Nat) (new_hash : Bytes) (pool : ExecutorPool)
    (r0 : ExecutionResult) (ty : EnclaveType) (hp : s.executor_pool = some pool)
    (hslot : (ty = EnclaveType.IntelSGX ∧ pool.sgx_executor = some caller)
      ∨ (ty = EnclaveType.AMDSEV ∧ pool.sgx_executor ≠ some caller
         ∧ pool.sev_executor = some caller))
    (hpend : eid ∈ s.pending_verifications.getD [])
    (hr : s.execution_result eid = some r0)
    (hk : r0.enclave_type = ty) :
    submit_execution_result s caller ts bh eid new_hash
      = Except.ok
          { s with
            execution_result :=
              setFn s.execution_result eid
                { result_hash := new_hash, execution_id := eid, executor := caller
                  enclave_type := ty, timestamp := ts
                  block_height := bh } } := by
  rcases hslot with ⟨rfl, hsgx⟩ | ⟨rfl, hnsgx, hsev⟩
  · simp [submit_execution_result, verify_execution_match, get_executor_result,
      orAbort, hp, hsgx, hpend, setFn, bind, Except.bind]
  · simp [submit_execution_result, verify_execution_match, get_executor_result,
      orAbort, hp, hnsgx, hsev, hpend, setFn, bind, Except.bind]

/-- C5 amended witness: the theorem applied to both kinds at concrete
states — executor 3 resubmitting over its stored SGX result, and executor 4
resubmitting over its stored SEV result; both calls succeed and the stored
hash becomes the new one. -/
theorem c5_resubmission_overwrites_witness :
    (submit_execution_result single_result_state 3 25 8 1 (List.replicate 32 187)
      = Except.ok
          { single_result_state with
            execution_result :=
              setFn single_result_state.execution_result 1
                { result_hash := List.replicate 32 187, execution_id := 1
                  executor := 3, enclave_type := EnclaveType.IntelSGX
                  timestamp := 25, block_height := 8 } })
    ∧ (submit_execution_result single_result_state_sev 4 26 9 1
        (List.replicate 32 188)
      = Except.ok
          { single_result_state_sev with
            execution_result :=
              setFn single_result_state_sev.execution_result 1
                { result_hash := List.replicate 32 188, execution_id := 1
                  executor := 4, enclave_type := EnclaveType.AMDSEV
                  timestamp := 26, block_height := 9 } }) := by
  constructor
  · exact c5_resubmission_overwrites single_result_state 3 25 8 1
      (List.replicate 32 187) full_pool _ EnclaveType.IntelSGX rfl
      (Or.inl ⟨rfl, rfl⟩) (by decide) rfl rfl
  · exact c5_resubmission_overwrites single_result_state_sev 4 26 9 1
      (List.replicate 32 188) full_pool _ EnclaveType.AMDSEV rfl
      (Or.inr ⟨rfl, by decide, rfl⟩) (by decide) rfl rfl

/-- Helper: `init` writes neither `ExecutionResult` nor `ExecutionVerified`. -/
lemma init_exec_fields (s s' : State) (ts : Nat) (a b : String) (tok gov : Address)
    (h : init s ts a b tok gov = Except.ok s') :
    s'.execution_result = s.execution_result
    ∧ s'.execution_verified = s.execution_verified := by
  simp only [init, check, bind, Except.bind] at h
  repeat' split at h
  all_goals cases h
  all_goals exact ⟨rfl, rfl⟩

/-- Helper: `register_executor` writes neither execution key family. -/
lemma register_executor_exec_fields (s s' : State) (caller : Address) (ts : Nat)
    (ty : EnclaveType) (k : String) (att tok : Bytes)
    (h : register_executor s caller ts ty k att tok = Except.ok s') :
    s'.execution_result = s.execution_result
    ∧ s'.execution_verified = s.execution_verified := by
  simp only [register_executor, ensure_initialized, ensure_phase, check, orAbort,
    transition_to_executing, bind, Except.bind] at h
  repeat' split at h
  all_goals cases h
  all_goals exact ⟨rfl, rfl⟩

/-- Helper: `register_watchdog` writes neither execution key family. -/
lemma register_watchdog_exec_fields (s s' : State) (caller : Address)
    (ty : EnclaveType) (att sig : Bytes)
    (h : register_watchdog s caller ty att sig = Except.ok s') :
    s'.execution_result = s.execution_result
    ∧ s'.execution_verified = s.execution_verified := by
  simp only [register_watchdog, ensure_initialized, check, orAbort,
    bind, Except.bind] at h
  repeat' split at h
  all_goals cases h
  all_goals exact ⟨rfl, rfl⟩

/-- Helper: `submit_heartbeat` writes neither execution key family. -/
lemma submit_heartbeat_exec_fields (s s' : State) (caller : Address) (ts : Nat)
    (h : submit_heartbeat s caller ts = Except.ok s') :
    s'.execution_result = s.execution_result
    ∧ s'.execution_verified = s.execution_verified := by
  simp only [submit_heartbeat, ensure_initialized, check, orAbort,
    bind, Except.bind] at h
  repeat' split at h
  all_goals cases h
  all_goals exact ⟨rfl, rfl⟩

/-- Helper: `challenge_executor` writes neither execution key family. -/
lemma challenge_executor_exec_fields (s s' : State) (caller : Address) (ts : Nat)
    (x : Address) (ty : ChallengeType) (d : Bytes)
    (h : challenge_executor s caller ts x ty d = Except.ok s') :
    s'.execution_result = s.execution_result
    ∧ s'.execution_verified = s.execution_verified := by
  simp only [challenge_executor, ensure_initialized, ensure_phase, check, orAbort,
    bind, Except.bind] at h
  repeat' split at h
  all_goals cases h
  all_goals exact ⟨rfl, rfl⟩

/-- Helper: `respond_to_challenge` writes neither execution key family. -/
lemma respond_to_challenge_exec_fields (s s' : State) (caller : Address)
    (ts cid : Nat) (resp : Bytes) (proof : ChallengeProof)
    (h : respond_to_challenge s caller ts cid resp proof = Except.ok s') :
    s'.execution_result = s.execution_result
    ∧ s'.execution_verified = s.execution_verified := by
  simp only [respond_to_challenge, ensure_initialized, check, orAbort,
    verify_attestation_challenge, handle_failed_challenge, verify_sgx_keep,
    bind, Except.bind] at h
  repeat' split at h
  all_goals cases h
  all_goals exact ⟨rfl, rfl⟩

/-- Helper: `handle_challenge_failure` writes neither execution key family. -/
lemma handle_challenge_failure_exec_fields (s s' : State) (c : Challenge)
    (h : handle_challenge_failure s c = Except.ok s') :
    s'.execution_result = s.execution_result
    ∧ s'.execution_verified = s.execution_verified := by
  simp only [handle_challenge_failure, orAbort, bind, Except.bind] at h
  repeat' split at h
  all_goals cases h
  all_goals exact ⟨rfl, rfl⟩

/-- Helper: `verify_challenge_response` writes neither execution key family. -/
lemma verify_challenge_response_exec_fields (s s' : State) (caller : Address)
    (ts cid : Nat) (verdict : Bool) (proof : Bytes)
    (h : verify_challenge_response s caller ts cid verdict proof = Except.ok s') :
    s'.execution_result = s.execution_result
    ∧ s'.execution_verified = s.execution_verified := by
  simp only [verify_challenge_response, ensure_initialized, check, orAbort,
    transition_to_executing, bind, Except.bind] at h
  repeat' split at h
  all_goals cases h
  all_goals try exact ⟨rfl, rfl⟩
  all_goals rename_i heq
  all_goals exact ⟨(handle_challenge_failure_exec_fields _ _ _ heq).1,
    (handle_challenge_failure_exec_fields _ _ _ heq).2⟩

/-- Helper: `handle_execution_mismatch` writes neither execution key family
(it only flips the phase and runs challenge creation). -/
lemma handle_execution_mismatch_exec_fields (s s' : State) (caller : Address)
    (ts eid : Nat) (h : handle_execution_mismatch s caller ts eid = Except.ok s') :
    s'.execution_result = s.execution_result
    ∧ s'.execution_verified = s.execution_verified := by
  simp only [handle_execution_mismatch, create_dual_challenge, orAbort,
    bind, Except.bind] at h
  repeat' split at h
  all_goals try cases h
  all_goals rename_i heq
  · obtain ⟨e1, e2⟩ := challenge_executor_exec_fields _ _ _ _ _ _ _ heq
    obtain ⟨e3, e4⟩ := challenge_executor_exec_fields _ _ _ _ _ _ _ h
    exact ⟨by rw [e3, e1], by rw [e4, e2]⟩

/-- Helper: `verify_execution_match` preserves the invariant that an
execution id without a stored result has no `ExecutionVerified` entry. -/
lemma verify_execution_match_inv (s s' : State) (caller : Address) (ts eid : Nat)
    (h : verify_execution_match s caller ts eid = Except.ok s')
    (hg : ∀ id, s.execution_result id = none → s.execution_verified id = none) :
    ∀ id, s'.execution_result id = none → s'.execution_verified id = none := by
  simp only [verify_execution_match, get_executor_result, orAbort,
    bind, Except.bind] at h
  repeat' split at h
  all_goals try cases h
  case _ heqr _ _ _ _ =>
    -- matching-hash branch: `ExecutionVerified(eid)` is set while
    -- `ExecutionResult(eid)` is present
    intro id h2
    by_cases hid : id = eid
    · subst hid
      simp_all
    · simp only [setFn, hid, if_neg hid] at h2 ⊢
      exact hg id h2
  case _ heqm =>
    -- mismatch branch: delegated to the challenge machinery, which leaves
    -- both execution key families untouched
    obtain ⟨e1, e2⟩ := handle_execution_mismatch_exec_fields _ _ _ _ _ heqm
    intro id h2
    simp only [e2]
    simp only [e1] at h2
    exact hg id h2
  case _ =>
    exact hg

/-- Helper: `submit_execution_result` preserves the same invariant. -/
lemma submit_execution_result_inv (s s' : State) (caller : Address)
    (ts bh eid : Nat) (hsh : Bytes)
    (h : submit_execution_result s caller ts bh eid hsh = Except.ok s')
    (hg : ∀ id, s.execution_result id = none → s.execution_verified id = none) :
    ∀ id, s'.execution_result id = none → s'.execution_verified id = none := by
  simp only [submit_execution_result, orAbort, bind, Except.bind] at h
  repeat' split at h
  all_goals try cases h
  -- the surviving leaves: a first submission appends the id to the pending
  -- list, a repeated one is delegated to `verify_execution_match`; in both
  -- the only touched execution key is `ExecutionResult(eid)`, just stored
  all_goals try (refine verify_execution_match_inv _ _ _ _ _ h ?_)
  all_goals
    (intro id h2
     by_cases hid : id = eid
     · subst hid
       simp [setFn] at h2
     · simp only [setFn, if_neg hid] at h2
       exact hg id h2)

/-- Helper: every transaction preserves the invariant. -/
lemma applyOp_inv (s s' : State) (o : Op) (h : applyOp s o = Except.ok s')
    (hg : ∀ id, s.execution_result id = none → s.execution_verified id = none) :
    ∀ id, s'.execution_result id = none → s'.execution_verified id = none := by
  cases o with
  | opInit ts a b tok gov =>
      obtain ⟨e1, e2⟩ := init_exec_fields _ _ _ _ _ _ _ h
      intro id h2
      rw [e2]
      exact hg id (by rwa [e1] at h2)
  | opRegisterExecutor caller ts ty k att tok =>
      obtain ⟨e1, e2⟩ := register_executor_exec_fields _ _ _ _ _ _ _ _ h
      intro id h2
      rw [e2]
      exact hg id (by rwa [e1] at h2)
  | opRegisterWatchdog caller ty att sig =>
      obtain ⟨e1, e2⟩ := register_watchdog_exec_fields _ _ _ _ _ _ h
      intro id h2
      rw [e2]
      exact hg id (by rwa [e1] at h2)
  | opSubmitHeartbeat caller ts =>
      obtain ⟨e1, e2⟩ := submit_heartbeat_exec_fields _ _ _ _ h
      intro id h2
      rw [e2]
      exact hg id (by rwa [e1] at h2)
  | opSubmitExecutionResult caller ts bh eid hsh =>
      exact submit_execution_result_inv _ _ _ _ _ _ _ h hg
  | opChallengeExecutor caller ts x ty d =>
      obtain ⟨e1, e2⟩ := challenge_executor_exec_fields _ _ _ _ _ _ _ h
      intro id h2
      rw [e2]
      exact hg id (by rwa [e1] at h2)
  | opRespondToChallenge caller ts cid resp proof =>
      obtain ⟨e1, e2⟩ := respond_to_challenge_exec_fields _ _ _ _ _ _ _ h
      intro id h2
      rw [e2]
      exact hg id (by rwa [e1] at h2)
  | opVerifyChallengeResponse caller ts cid verdict proof =>
      obtain ⟨e1, e2⟩ := verify_challenge_response_exec_fields _ _ _ _ _ _ _ h
      intro id h2
      rw [e2]
      exact hg id (by rwa [e1] at h2)

/-- Helper: the invariant carries along any successful transaction
sequence. -/
lemma runOps_inv (ops : List Op) (s s' : State) (h : runOps s ops = Except.ok s')
    (hg : ∀ id, s.execution_result id = none → s.execution_verified id = none) :
    ∀ id, s'.execution_result id = none → s'.execution_verified id = none := by
  induction ops generalizing s with
  | nil =>
      simp only [runOps] at h
      cases h
      exact hg
  | cons o rest ih =>
      simp only [runOps, bind, Except.bind] at h
      split at h
      · cases h
      · rename_i v heq
        exact ih v h (applyOp_inv _ _ _ heq hg)

/-- Helper: a `getD Phase.None` value other than `Phase.None` pins down the
stored phase. -/
lemma phase_of_getD (o : Option Phase) (p : Phase) (hne : p ≠ Phase.None)
    (h : o.getD Phase.None = p) : o = some p := by
  cases o <;> simp_all

/-- Helper: a state whose challenge store is empty satisfies the challenge
components of the invariant for free. -/
lemma sysInv_of_no_challenges (t : State)
    (hnc : t.current_phase ≠ some Phase.Crashed)
    (hun : t.system_initialized.getD false = false →
      t.executor_pool = none ∧ ∀ cid, t.challenges cid = none)
    (hchal : ∀ cid, t.challenges cid = none)
    (hexp : t.current_phase = some Phase.Executing →
      ∃ ep, t.executor_pool = some ep
        ∧ ep.sgx_executor.isSome = true ∧ ep.sev_executor.isSome = true) :
    SysInv t := by
  refine ⟨hnc, hun, hexp, ?_, ?_, ?_, fun _ cid => hchal cid⟩
  · intro _ cid c hc
    rw [hchal cid] at hc
    cases hc
  · intro cid c hc _
    rw [hchal cid] at hc
    cases hc
  · intro cid1 c1 cid2 c2 hc1 _ _ _
    rw [hchal cid1] at hc1
    cases hc1

/-- Helper: the invariant transfers to any state with the same phase,
challenge store and initialization flag, whose executor pool keeps the same
slot contents (counters may differ). -/
lemma sysInv_frame (t t' : State)
    (hph : t'.current_phase = t.current_phase)
    (hch : t'.challenges = t.challenges)
    (hin : t'.system_initialized = t.system_initialized)
    (hpool : ∀ ep, t.executor_pool = some ep →
      ∃ ep', t'.executor_pool = some ep'
        ∧ ep'.sgx_executor = ep.sgx_executor ∧ ep'.sev_executor = ep.sev_executor)
    (hpool_none : t.executor_pool = none → t'.executor_pool = none)
    (hs : SysInv t) : SysInv t' := by
  refine ⟨?_, ?_, ?_, ?_, ?_, ?_, ?_⟩
  · rw [hph]
    exact hs.not_crashed
  · intro hun
    rw [hin] at hun
    obtain ⟨hpn, hcn⟩ := hs.uninit hun
    exact ⟨hpool_none hpn, fun cid => by rw [hch]; exact hcn cid⟩
  · intro hex
    rw [hph] at hex
    obtain ⟨ep, hep0, hx, hv⟩ := hs.executing_pool hex
    obtain ⟨ep', he', hxx, hvv⟩ := hpool ep hep0
    exact ⟨ep', he', by rw [hxx]; exact hx, by rw [hvv]; exact hv⟩
  · intro hex cid c hc
    rw [hph] at hex
    rw [hch] at hc
    exact hs.executing_settled hex cid c hc
  · intro cid c hc hu
    rw [hch] at hc
    obtain ⟨ep, hep0, hx, hv⟩ := hs.open_pool cid c hc hu
    obtain ⟨ep', he', hxx, hvv⟩ := hpool ep hep0
    exact ⟨ep', he', by rw [hxx]; exact hx, by rw [hvv]; exact hv⟩
  · intro cid1 c1 cid2 c2 hc1 hc2 hu1 hu2
    rw [hch] at hc1 hc2
    exact hs.open_unique cid1 c1 cid2 c2 hc1 hc2 hu1 hu2
  · intro hd cid
    rw [hph] at hd
    rw [hch]
    exact hs.creation_clean hd cid

/-- Helper: `verify_execution_match` can only return the state unchanged:
the single stored record has one enclave kind, so the two projections of
`get_executor_result` are never simultaneously filled and only the
early-return arm is reachable. -/
lemma verify_execution_match_eq (s s' : State) (caller : Address) (ts eid : Nat)
    (h : verify_execution_match s caller ts eid = Except.ok s') : s' = s := by
  cases hres : s.execution_result eid with
  | none =>
      simp [verify_execution_match, orAbort, hres, bind, Except.bind] at h
  | some r =>
      cases hty : r.enclave_type
      · simp [verify_execution_match, get_executor_result, orAbort, hres, hty,
          bind, Except.bind] at h
        exact h.symm
      · simp [verify_execution_match, get_executor_result, orAbort, hres, hty,
          bind, Except.bind] at h
        exact h.symm

/-- Helper: when both slots are occupied, `handle_challenge_failure` vacates
at most one of them, so the `Crashed` branch is not taken: the phase,
challenges and initialization flag are unchanged and a pool remains. -/
lemma handle_challenge_failure_no_crash (s s' : State) (c : Challenge)
    (ep : ExecutorPool) (hep : s.executor_pool = some ep)
    (h1 : ep.sgx_executor.isSome = true) (h2 : ep.sev_executor.isSome = true)
    (h : handle_challenge_failure s c = Except.ok s') :
    s'.current_phase = s.current_phase ∧ s'.challenges = s.challenges
    ∧ s'.system_initialized = s.system_initialized
    ∧ ∃ ep', s'.executor_pool = some ep' := by
  simp only [handle_challenge_failure, orAbort, hep, bind, Except.bind] at h
  repeat' split at h
  all_goals cases h
  all_goals try exact ⟨rfl, rfl, rfl, ⟨_, rfl⟩⟩
  all_goals simp_all

/-- Helper: `init` preserves the reachability invariant. -/
lemma init_sysInv (s s' : State) (ts : Nat) (a b : String) (tok gov : Address)
    (h : init s ts a b tok gov = Except.ok s') (hs : SysInv s) : SysInv s' := by
  simp only [init, check, bind, Except.bind] at h
  split at h
  all_goals cases h
  rename_i hcond
  have hchal : ∀ cid, s.challenges cid = none :=
    (hs.uninit (by simpa using hcond)).2
  refine ⟨by simp, by simp, ?_, ?_, ?_, ?_, ?_⟩
  · intro hex; exact absurd hex (by simp)
  · intro hex; exact absurd hex (by simp)
  · intro cid c hc _; rw [hchal cid] at hc; cases hc
  · intro cid₁ c₁ cid₂ c₂ hc₁ _ _ _; rw [hchal cid₁] at hc₁; cases hc₁
  · intro _ cid; exact hchal cid

/-- Helper: `register_watchdog` preserves the reachability invariant (it
only appends to the watchdog pool). -/
lemma register_watchdog_sysInv (s s' : State) (caller : Address)
    (ty : EnclaveType) (att sig : Bytes)
    (h : register_watchdog s caller ty att sig = Except.ok s') (hs : SysInv s) :
    SysInv s' := by
  simp only [register_watchdog, ensure_initialized, check, orAbort,
    bind, Except.bind] at h
  repeat' split at h
  all_goals cases h
  exact ⟨hs.not_crashed, hs.uninit, hs.executing_pool, hs.executing_settled,
    hs.open_pool, hs.open_unique, hs.creation_clean⟩

/-- Helper: `submit_heartbeat` preserves the reachability invariant (it
touches only the heartbeat key and the pool's counters, never the slots,
the phase or the challenges). -/
lemma submit_heartbeat_sysInv (s s' : State) (caller : Address) (ts : Nat)
    (h : submit_heartbeat s caller ts = Except.ok s') (hs : SysInv s) :
    SysInv s' := by
  by_cases hini : s.system_initialized.getD false = true
  case neg =>
    simp [submit_heartbeat, ensure_initialized, check, hini, bind, Except.bind] at h
  cases hep : s.executor_pool with
  | none =>
      simp [submit_heartbeat, ensure_initialized, check, orAbort, hini, hep,
        bind, Except.bind] at h
  | some epool =>
  cases hwp : s.watchdog_pool with
  | none =>
      simp [submit_heartbeat, ensure_initialized, check, orAbort, hini, hep, hwp,
        bind, Except.bind] at h
  | some wpool =>
  have hnun : ¬(s.system_initialized.getD false = false) := by simp [hini]
  simp only [submit_heartbeat, ensure_initialized, check, orAbort, hini, hep, hwp,
    if_true, bind, Except.bind] at h
  repeat' split at h
  all_goals cases h
  all_goals refine sysInv_frame s _ rfl rfl rfl ?_ ?_ hs
  all_goals
    try (intro hn
         rw [hep] at hn
         cases hn)
  all_goals
    (intro ep hep0
     rw [hep] at hep0
     cases hep0
     exact ⟨_, rfl, rfl, rfl⟩)

/-- Helper: `register_executor` preserves the reachability invariant: it
runs only in phase `Creation`, where no challenge exists, and when it
transitions to `Executing` both slots are occupied. -/
lemma register_executor_sysInv (s s' : State) (caller : Address) (ts : Nat)
    (ty : EnclaveType) (k : String) (att tok : Bytes)
    (h : register_executor s caller ts ty k att tok = Except.ok s')
    (hs : SysInv s) : SysInv s' := by
  by_cases hini : s.system_initialized.getD false = true
  case neg =>
    simp [register_executor, ensure_initialized, check, hini, bind, Except.bind] at h
  by_cases hph : s.current_phase.getD Phase.None = Phase.Creation
  case neg =>
    simp [register_executor, ensure_initialized, ensure_phase, check, hini, hph,
      bind, Except.bind] at h
  have hphase : s.current_phase = some Phase.Creation :=
    phase_of_getD _ _ (by decide) hph
  have hchal : ∀ cid, s.challenges cid = none :=
    hs.creation_clean (Or.inr (Or.inr hphase))
  have hnun : ¬(s.system_initialized.getD false = false) := by simp [hini]
  cases hep : s.executor_pool with
  | none =>
      cases ty <;>
        simp [register_executor, ensure_initialized, ensure_phase, check, orAbort,
          verify_attestation_report, verify_sgx_keep, verify_sev_keep,
          hini, hph, hep, bind, Except.bind] at h
  | some epool =>
  cases ty with
  | IntelSGX =>
    by_cases hslot : epool.sgx_executor.isNone = true
    case neg =>
      simp [register_executor, ensure_initialized, ensure_phase, check, orAbort,
        verify_attestation_report, verify_sgx_keep, hini, hph, hep, hslot,
        bind, Except.bind] at h
    by_cases hboth : epool.sev_executor.isSome = true
    · simp only [register_executor, ensure_initialized, ensure_phase, check,
        orAbort, verify_attestation_report, verify_sgx_keep,
        transition_to_executing, hini, hph, hep, hslot, hboth, if_true,
        Option.isSome_some, Bool.and_self, Bool.and_true, bind, Except.bind] at h
      cases h
      refine sysInv_of_no_challenges _ (by simp) ?_ (fun cid => hchal cid) ?_
      · intro hun
        exact absurd (show s.system_initialized.getD false = false from hun) hnun
      · intro _
        exact ⟨_, rfl, rfl, hboth⟩
    · simp only [register_executor, ensure_initialized, ensure_phase, check,
        orAbort, verify_attestation_report, verify_sgx_keep,
        transition_to_executing, hini, hph, hep, hslot, hboth, if_true,
        Option.isSome_some, Bool.and_self, Bool.and_true, if_false,
        Bool.true_and, bind, Except.bind] at h
      cases h
      refine sysInv_of_no_challenges _ ?_ ?_ (fun cid => hchal cid) ?_
      · intro hcr
        exact absurd (show s.current_phase = some Phase.Crashed from hcr)
          (by rw [hphase]; decide)
      · intro hun
        exact absurd (show s.system_initialized.getD false = false from hun) hnun
      · intro hex
        exact absurd (show s.current_phase = some Phase.Executing from hex)
          (by rw [hphase]; decide)
  | AMDSEV =>
    by_cases hslot : epool.sev_executor.isNone = true
    case neg =>
      simp [register_executor, ensure_initialized, ensure_phase, check, orAbort,
        verify_attestation_report, verify_sev_keep, hini, hph, hep, hslot,
        bind, Except.bind] at h
    by_cases hboth : epool.sgx_executor.isSome = true
    · simp only [register_executor, ensure_initialized, ensure_phase, check,
        orAbort, verify_attestation_report, verify_sev_keep,
        transition_to_executing, hini, hph, hep, hslot, hboth, if_true,
        Option.isSome_some, Bool.and_self, Bool.true_and, bind, Except.bind] at h
      cases h
      refine sysInv_of_no_challenges _ (by simp) ?_ (fun cid => hchal cid) ?_
      · intro hun
        exact absurd (show s.system_initialized.getD false = false from hun) hnun
      · intro _
        exact ⟨_, rfl, hboth, rfl⟩
    · simp only [register_executor, ensure_initialized, ensure_phase, check,
        orAbort, verify_attestation_report, verify_sev_keep,
        transition_to_executing, hini, hph, hep, hslot, hboth, if_true,
        Option.isSome_some, Bool.and_self, Bool.true_and, if_false,
        bind, Except.bind] at h
      cases h
      refine sysInv_of_no_challenges _ ?_ ?_ (fun cid => hchal cid) ?_
      · intro hcr
        exact absurd (show s.current_phase = some Phase.Crashed from hcr)
          (by rw [hphase]; decide)
      · intro hun
        exact absurd (show s.system_initialized.getD false = false from hun) hnun
      · intro hex
        exact absurd (show s.current_phase = some Phase.Executing from hex)
          (by rw [hphase]; decide)

/-- Helper: `submit_execution_result` preserves the reachability invariant:
a first submission touches only the execution keys and the pending list, and
a repeated one additionally runs `verify_execution_match`, which returns the
state unchanged. -/
lemma submit_execution_result_sysInv (s s' : State) (caller : Address)
    (ts bh eid : Nat) (hsh : Bytes)
    (h : submit_execution_result s caller ts bh eid hsh = Except.ok s')
    (hs : SysInv s) : SysInv s' := by
  cases hep : s.executor_pool with
  | none =>
      simp [submit_execution_result, orAbort, hep, bind, Except.bind] at h
  | some epool =>
  simp only [submit_execution_result, orAbort, hep, bind, Except.bind] at h
  repeat' split at h
  all_goals try cases h
  all_goals
    try (have heqm := verify_execution_match_eq _ _ _ _ _ h
         subst heqm)
  all_goals refine sysInv_frame s _ rfl rfl rfl ?_ ?_ hs
  all_goals
    try (intro hn
         rw [hep] at hn
         cases hn)
  all_goals
    (intro ep hep0
     rw [hep] at hep0
     cases hep0
     exact ⟨_, rfl, rfl, rfl⟩)

/-- Helper: the invariant holds after a fresh challenge is created from an
`Executing` state (all previously stored challenges are settled there, and
both slots are occupied). -/
lemma sysInv_after_challenge_create (s t : State) (nid : Nat) (newc : Challenge)
    (hphl : t.current_phase = some Phase.ChallengeExecutor)
    (hchl : t.challenges = setFn s.challenges nid newc)
    (hinl : t.system_initialized = s.system_initialized)
    (hpl : t.executor_pool = s.executor_pool)
    (hini : s.system_initialized.getD false = true)
    (hphase : s.current_phase = some Phase.Executing)
    (hs : SysInv s) : SysInv t := by
  refine ⟨?_, ?_, ?_, ?_, ?_, ?_, ?_⟩
  · rw [hphl]
    decide
  · intro hun
    rw [hinl] at hun
    exact absurd hun (by simp [hini])
  · intro hex
    rw [hphl] at hex
    exact absurd hex (by decide)
  · intro hex
    rw [hphl] at hex
    exact absurd hex (by decide)
  · intro cid c hc hu
    rw [hchl] at hc
    simp only [setFn] at hc
    by_cases hcid : cid = nid
    · obtain ⟨ep, hep0, hx, hv⟩ := hs.executing_pool hphase
      exact ⟨ep, by rw [hpl]; exact hep0, hx, hv⟩
    · rw [if_neg hcid] at hc
      exact absurd hu (hs.executing_settled hphase cid c hc)
  · intro cid1 c1 cid2 c2 hc1 hc2 hu1 hu2
    rw [hchl] at hc1 hc2
    simp only [setFn] at hc1 hc2
    by_cases h1 : cid1 = nid <;> by_cases h2 : cid2 = nid
    · rw [h1, h2]
    · rw [if_neg h2] at hc2
      exact absurd hu2 (hs.executing_settled hphase cid2 c2 hc2)
    · rw [if_neg h1] at hc1
      exact absurd hu1 (hs.executing_settled hphase cid1 c1 hc1)
    · rw [if_neg h1] at hc1
      exact absurd hu1 (hs.executing_settled hphase cid1 c1 hc1)
  · intro hd cid
    rw [hphl] at hd
    rcases hd with hd | hd | hd <;> exact absurd hd (by decide)

/-- Helper: `challenge_executor` preserves the reachability invariant. -/
lemma challenge_executor_sysInv (s s' : State) (caller : Address) (ts : Nat)
    (x : Address) (ty : ChallengeType) (d : Bytes)
    (h : challenge_executor s caller ts x ty d = Except.ok s') (hs : SysInv s) :
    SysInv s' := by
  by_cases hini : s.system_initialized.getD false = true
  case neg =>
    simp [challenge_executor, ensure_initialized, check, hini, bind, Except.bind] at h
  by_cases hph : s.current_phase.getD Phase.None = Phase.Executing
  case neg =>
    simp [challenge_executor, ensure_initialized, ensure_phase, check, hini, hph,
      bind, Except.bind] at h
  have hphase : s.current_phase = some Phase.Executing :=
    phase_of_getD _ _ (by decide) hph
  simp only [challenge_executor, ensure_initialized, ensure_phase, check, orAbort,
    hini, hph, if_true, bind, Except.bind] at h
  repeat' split at h
  all_goals cases h
  all_goals
    exact sysInv_after_challenge_create s _ ((s.challenge_count.getD 0) + 1) _
      rfl rfl rfl rfl hini hphase hs

/-- Helper: the invariant holds after the (unique) unsettled challenge at
`cid` is replaced by an arbitrary challenge, while the phase and the
initialization flag are unchanged; a pool with both slots occupied need only
be exhibited when the replacement is itself unsettled. -/
lemma sysInv_challenge_update (s t : State) (cid : Nat) (c c' : Challenge)
    (hcc : s.challenges cid = some c) (hu : unsettled c)
    (hphl : t.current_phase = s.current_phase)
    (hchl : t.challenges = setFn s.challenges cid c')
    (hinl : t.system_initialized = s.system_initialized)
    (hpool : unsettled c' →
      ∃ ep', t.executor_pool = some ep'
        ∧ ep'.sgx_executor.isSome = true ∧ ep'.sev_executor.isSome = true)
    (hs : SysInv s) : SysInv t := by
  refine ⟨?_, ?_, ?_, ?_, ?_, ?_, ?_⟩
  · rw [hphl]
    exact hs.not_crashed
  · intro hun
    rw [hinl] at hun
    obtain ⟨-, hcn⟩ := hs.uninit hun
    rw [hcn cid] at hcc
    cases hcc
  · intro hex
    rw [hphl] at hex
    exact absurd hu (hs.executing_settled hex cid c hcc)
  · intro hex
    rw [hphl] at hex
    exact absurd hu (hs.executing_settled hex cid c hcc)
  · intro cid2 c2 hc2 hu2
    rw [hchl] at hc2
    simp only [setFn] at hc2
    by_cases h2 : cid2 = cid
    · rw [if_pos h2] at hc2
      cases hc2
      exact hpool hu2
    · rw [if_neg h2] at hc2
      exact absurd (hs.open_unique cid2 c2 cid c hc2 hcc hu2 hu) h2
  · intro cid1 c1 cid2 c2 hc1 hc2 hu1 hu2
    rw [hchl] at hc1 hc2
    simp only [setFn] at hc1 hc2
    by_cases h1 : cid1 = cid <;> by_cases h2 : cid2 = cid
    · rw [h1, h2]
    · rw [if_neg h2] at hc2
      exact absurd (hs.open_unique cid2 c2 cid c hc2 hcc hu2 hu) h2
    · rw [if_neg h1] at hc1
      exact absurd (hs.open_unique cid1 c1 cid c hc1 hcc hu1 hu) h1
    · rw [if_neg h1] at hc1
      exact absurd (hs.open_unique cid1 c1 cid c hc1 hcc hu1 hu) h1
  · intro hd cid2
    rw [hphl] at hd
    rw [hs.creation_clean hd cid] at hcc
    cases hcc

/-- Helper: the invariant holds after the (unique) unsettled challenge at
`cid` is settled with a terminal status while the phase transitions to
`Executing` and the pool is unchanged. -/
lemma sysInv_challenge_verified (s t : State) (cid : Nat) (c c' : Challenge)
    (hcc : s.challenges cid = some c) (hu : unsettled c) (ht : ¬unsettled c')
    (hphl : t.current_phase = some Phase.Executing)
    (hchl : t.challenges = setFn s.challenges cid c')
    (hinl : t.system_initialized = s.system_initialized)
    (hpl : t.executor_pool = s.executor_pool)
    (hs : SysInv s) : SysInv t := by
  refine ⟨?_, ?_, ?_, ?_, ?_, ?_, ?_⟩
  · rw [hphl]
    decide
  · intro hun
    rw [hinl] at hun
    obtain ⟨-, hcn⟩ := hs.uninit hun
    rw [hcn cid] at hcc
    cases hcc
  · intro _
    obtain ⟨ep, hep0, hx, hv⟩ := hs.open_pool cid c hcc hu
    exact ⟨ep, by rw [hpl]; exact hep0, hx, hv⟩
  · intro _ cid2 c2 hc2
    rw [hchl] at hc2
    simp only [setFn] at hc2
    by_cases h2 : cid2 = cid
    · rw [if_pos h2] at hc2
      cases hc2
      exact ht
    · rw [if_neg h2] at hc2
      intro hu2
      exact h2 (hs.open_unique cid2 c2 cid c hc2 hcc hu2 hu)
  · intro cid2 c2 hc2 hu2
    rw [hchl] at hc2
    simp only [setFn] at hc2
    by_cases h2 : cid2 = cid
    · rw [if_pos h2] at hc2
      cases hc2
      exact absurd hu2 ht
    · rw [if_neg h2] at hc2
      exact absurd (hs.open_unique cid2 c2 cid c hc2 hcc hu2 hu) h2
  · intro cid1 c1 cid2 c2 hc1 hc2 hu1 hu2
    rw [hchl] at hc1 hc2
    simp only [setFn] at hc1 hc2
    by_cases h1 : cid1 = cid <;> by_cases h2 : cid2 = cid
    · rw [h1, h2]
    · rw [if_neg h2] at hc2
      exact absurd (hs.open_unique cid2 c2 cid c hc2 hcc hu2 hu) h2
    · rw [if_neg h1] at hc1
      exact absurd (hs.open_unique cid1 c1 cid c hc1 hcc hu1 hu) h1
    · rw [if_neg h1] at hc1
      exact absurd (hs.open_unique cid1 c1 cid c hc1 hcc hu1 hu) h1
  · intro hd cid2
    rw [hphl] at hd
    rcases hd with hd | hd | hd <;> exact absurd hd (by decide)

/-- Helper: `respond_to_challenge` preserves the reachability invariant: it
turns the pending challenge at `cid` into a `Responded` one (still
unsettled), with the phase, pool and initialization flag unchanged. -/
lemma respond_to_challenge_sysInv (s s' : State) (caller : Address)
    (ts cid : Nat) (resp : Bytes) (proof : ChallengeProof)
    (h : respond_to_challenge s caller ts cid resp proof = Except.ok s')
    (hs : SysInv s) : SysInv s' := by
  by_cases hini : s.system_initialized.getD false = true
  case neg =>
    simp [respond_to_challenge, ensure_initialized, check, hini,
      bind, Except.bind] at h
  cases hcc : s.challenges cid with
  | none =>
      simp [respond_to_challenge, ensure_initialized, check, orAbort, hini, hcc,
        bind, Except.bind] at h
  | some c =>
  by_cases hpend : c.status = ChallengeStatus.Pending
  case neg =>
    simp only [respond_to_challenge, ensure_initialized, check, orAbort, hini,
      hcc, if_true, bind, Except.bind] at h
    repeat' split at h
    all_goals simp_all
  have hu : unsettled c := Or.inl hpend
  obtain ⟨ep0, hep0, hx0, hv0⟩ := hs.open_pool cid c hcc hu
  simp only [respond_to_challenge, ensure_initialized, check, orAbort,
    verify_attestation_challenge, handle_failed_challenge, verify_sgx_keep,
    hini, hcc, hpend, if_true, bind, Except.bind] at h
  repeat' split at h
  all_goals cases h
  all_goals
    exact sysInv_challenge_update s _ cid c _ hcc hu rfl rfl rfl
      (fun _ => ⟨ep0, hep0, hx0, hv0⟩) hs

/-- Helper: `verify_challenge_response` preserves the reachability
invariant: below the quorum it keeps the challenge `Responded`; at the
quorum it either settles it `Verified` (phase back to `Executing`) or
settles it `Failed`, where `handle_challenge_failure` vacates at most one of
the two occupied slots and therefore never reaches the `Crashed` branch. -/
lemma verify_challenge_response_sysInv (s s' : State) (caller : Address)
    (ts cid : Nat) (verdict : Bool) (proof : Bytes)
    (h : verify_challenge_response s caller ts cid verdict proof = Except.ok s')
    (hs : SysInv s) : SysInv s' := by
  by_cases hini : s.system_initialized.getD false = true
  case neg =>
    simp [verify_challenge_response, ensure_initialized, check, hini,
      bind, Except.bind] at h
  cases hwp : s.watchdog_pool with
  | none =>
      simp [verify_challenge_response, ensure_initialized, check, orAbort, hini,
        hwp, bind, Except.bind] at h
  | some wpool =>
  cases hcc : s.challenges cid with
  | none =>
      simp only [verify_challenge_response, ensure_initialized, check, orAbort,
        hini, hwp, hcc, if_true, bind, Except.bind] at h
      repeat' split at h
      all_goals simp_all
  | some c =>
  by_cases hresp : c.status = ChallengeStatus.Responded
  case neg =>
    simp only [verify_challenge_response, ensure_initialized, check, orAbort,
      hini, hwp, hcc, if_true, bind, Except.bind] at h
    repeat' split at h
    all_goals simp_all
  have hu : unsettled c := Or.inr hresp
  obtain ⟨ep0, hep0, hx0, hv0⟩ := hs.open_pool cid c hcc hu
  simp only [verify_challenge_response, ensure_initialized, check, orAbort,
    transition_to_executing, hini, hwp, hcc, hresp, if_true,
    bind, Except.bind] at h
  repeat' split at h
  all_goals cases h
  · -- at the quorum with the current verdict true: settled `Verified`,
    -- phase back to `Executing`
    refine sysInv_challenge_verified s _ cid c _ hcc hu ?_ rfl rfl rfl rfl hs
    simp [unsettled]
  · -- at the quorum with the current verdict false: settled `Failed`;
    -- the failure handler leaves the phase alone (both slots were occupied)
    rename_i v heq
    obtain ⟨hpph, hpch, hpin, ⟨ep2, hep2⟩⟩ :=
      handle_challenge_failure_no_crash s v _ ep0 hep0 hx0 hv0 heq
    refine sysInv_challenge_update s _ cid c
      { c with status := ChallengeStatus.Failed, verification_proofs := c.verification_proofs ++ [proof] }
      hcc hu ?_ ?_ ?_ ?_ hs
    · exact hpph
    · show setFn v.challenges cid _ = setFn s.challenges cid _
      rw [hpch]
    · exact hpin
    · intro hu2
      exact absurd hu2 (by simp [unsettled])
  · -- below the quorum: the challenge stays `Responded`
    refine sysInv_challenge_update s _ cid c _ hcc hu rfl rfl rfl ?_ hs
    exact fun _ => ⟨ep0, hep0, hx0, hv0⟩

/-- C9: in every reachable state, the public query `verify_execution` on an
execution id for which no execution result has ever been stored returns
`false` — it never fails (it is a total Boolean query) and never returns
`true` on an unknown id. -/
theorem c9_unknown_execution_not_verified (ops : List Op) (s : State) (eid : Nat)
    (h : runOps genesis ops = Except.ok s) (h2 : s.execution_result eid = none) :
    verify_execution s eid = false := by
  have hg := runOps_inv ops genesis s h (fun _ _ => rfl)
  unfold verify_execution
  rw [hg eid h2]
  rfl

/-- C9 witness: the theorem applied to the empty transaction sequence and
execution id 0. -/
theorem c9_unknown_execution_not_verified_witness :
    runOps genesis [] = Except.ok genesis
    ∧ genesis.execution_result 0 = none
    ∧ verify_execution genesis 0 = false :=
  ⟨rfl, rfl, c9_unknown_execution_not_verified [] genesis 0 rfl rfl⟩

/-- Helper: the empty store satisfies the reachability invariant. -/
lemma genesis_sysInv : SysInv genesis := by
  refine ⟨?_, ?_, ?_, ?_, ?_, ?_, ?_⟩
  · simp [genesis]
  · intro _
    exact ⟨rfl, fun _ => rfl⟩
  · intro hex
    simp [genesis] at hex
  · intro hex
    simp [genesis] at hex
  · intro cid c hc _
    simp [genesis] at hc
  · intro cid1 c1 cid2 c2 hc1 _ _ _
    simp [genesis] at hc1
  · intro _ cid
    rfl

/-- Helper: every transaction preserves the reachability invariant. -/
lemma applyOp_sysInv (s s' : State) (o : Op) (h : applyOp s o = Except.ok s')
    (hs : SysInv s) : SysInv s' := by
  cases o with
  | opInit ts a b tok gov => exact init_sysInv _ _ _ _ _ _ _ h hs
  | opRegisterExecutor caller ts ty k att tok =>
      exact register_executor_sysInv _ _ _ _ _ _ _ _ h hs
  | opRegisterWatchdog caller ty att sig =>
      exact register_watchdog_sysInv _ _ _ _ _ _ h hs
  | opSubmitHeartbeat caller ts => exact submit_heartbeat_sysInv _ _ _ _ h hs
  | opSubmitExecutionResult caller ts bh eid hsh =>
      exact submit_execution_result_sysInv _ _ _ _ _ _ _ h hs
  | opChallengeExecutor caller ts x ty d =>
      exact challenge_executor_sysInv _ _ _ _ _ _ _ h hs
  | opRespondToChallenge caller ts cid resp proof =>
      exact respond_to_challenge_sysInv _ _ _ _ _ _ _ h hs
  | opVerifyChallengeResponse caller ts cid verdict proof =>
      exact verify_challenge_response_sysInv _ _ _ _ _ _ _ h hs

/-- Helper: the reachability invariant carries along any successful
transaction sequence. -/
lemma runOps_sysInv (ops : List Op) (s s' : State)
    (h : runOps s ops = Except.ok s') (hs : SysInv s) : SysInv s' := by
  induction ops generalizing s with
  | nil =>
      simp only [runOps] at h
      cases h
      exact hs
  | cons o rest ih =>
      simp only [runOps, bind, Except.bind] at h
      split at h
      · cases h
      · rename_i v heq
        exact ih v h (applyOp_sysInv _ _ _ heq hs)

/-- C7: in every reachable state the phase is **not** `Crashed`, so the
claim — in every reachable state with phase `Crashed` no state-mutating
exposed operation succeeds, the phase being terminal and read-only — holds:
there is no reachable `Crashed` state to violate it.  The proof is an
inductive invariant: the only write of `Phase.Crashed`
(`handle_challenge_failure`) requires both executor slots to be empty after
vacating at most one, while every reachable state keeps both slots occupied
whenever an unsettled challenge (the only route to the failure handler)
exists. -/
theorem c7_crashed_unreachable (s : State) (h : Reachable s) :
    s.current_phase ≠ some Phase.Crashed := by
  obtain ⟨ops, hops⟩ := h
  exact (runOps_sysInv ops genesis s hops genesis_sysInv).not_crashed

/-- C7 witness: the theorem applied to a concrete reachable state — the one
produced by the quorum trace (`init`, two executor registrations, two
watchdog registrations, a challenge, its response and its verification). -/
theorem c7_crashed_unreachable_witness :
    (∃ s, runOps genesis quorum_trace = Except.ok s
       ∧ s.current_phase ≠ some Phase.Crashed) := by
  refine ⟨_, rfl, ?_⟩
  exact c7_crashed_unreachable _ ⟨quorum_trace, rfl⟩

end POC1
